import Mathlib

/-!
Verification of the cheap-settings configuration-resolution engine.

The development shallowly embeds the resolution pipeline and type-coercion
engine of `src/cheap_settings/cheap_settings.py` and the command-surface
generator of `src/cheap_settings/command_line.py`.  Python values are
modelled by the inductive `Value`, Python type annotations by `PyAtom` and
`PyType` (the typing module flattens nested unions, so union members are
atoms), and raised exceptions by `Except` results.  Host primitives that
the code delegates to (the JSON parser, the textual numeric parsers,
ASCII case mapping) are modelled by executable Lean functions.
-/

/-- Atomic (non-union) Python type annotations used by the settings engine.
`listOf`/`dictOf` model parameterized generics such as list[str] and
dict[str, int]; `custom` models a user-defined class. -/
inductive PyAtom : Type where
  | noneType
  | bool
  | int
  | float
  | str
  | list
  | dict
  | listOf (t : PyAtom)
  | dictOf (k v : PyAtom)
  | custom (name : String)
  deriving DecidableEq

/-- A Python type annotation: either an atomic type or a union of atoms.
The typing module flattens nested unions, so union members are atomic. -/
inductive PyType : Type where
  | atom (a : PyAtom)
  | union (args : List PyAtom)
  deriving DecidableEq

/-- Runtime Python values handled by the settings engine: None, bool, int,
float (modelled as a rational), str, list and dict. -/
inductive Value : Type where
  | none
  | bool (b : Bool)
  | int (n : Int)
  | float (q : Rat)
  | str (s : String)
  | list (xs : List Value)
  | dict (kvs : List (String × Value))

/-- Exceptions raised by `_convert_value_to_type`: ValueError for bad
booleans/numerics/shapes, json.JSONDecodeError for malformed JSON, and the
union-exhaustion ValueError which carries the union's argument tuple. -/
inductive ConvError : Type where
  | invalidBool (value : String)
  | invalidInt (value : String)
  | invalidFloat (value : String)
  | jsonDecode (value : String)
  | notAList (value : String)
  | notADict (value : String)
  | unionExhausted (value : String) (args : List PyAtom)

/-- ASCII lower-casing of one character, modelling Python str.lower. -/
def lowerChar (c : Char) : Char :=
  if 'A' ≤ c ∧ c ≤ 'Z' then Char.ofNat (c.toNat + 32) else c

/-- ASCII lower-casing, modelling Python str.lower on identifiers and
boolean vocabulary words. -/
def lowerStr (s : String) : String :=
  String.mk (s.toList.map lowerChar)

/-- ASCII upper-casing of one character, modelling Python str.upper. -/
def upperChar (c : Char) : Char :=
  if 'a' ≤ c ∧ c ≤ 'z' then Char.ofNat (c.toNat - 32) else c

/-- ASCII upper-casing, modelling Python str.upper as used to derive
environment-variable names from attribute names. -/
def upperStr (s : String) : String :=
  String.mk (s.toList.map upperChar)

/-- Whitespace predicate for the JSON and numeric parser models. -/
def isWsChar (c : Char) : Bool :=
  c = ' ' || c = '\t' || c = '\n' || c = '\r'

/-- Drop leading whitespace. -/
def skipWs (cs : List Char) : List Char :=
  cs.dropWhile isWsChar

/-- Opening brace character, written by code point. -/
def lbrace : Char := Char.ofNat 123

/-- Closing brace character, written by code point. -/
def rbrace : Char := Char.ofNat 125

/-- JSON string escapes supported by the parser model. -/
def escChar (c : Char) : Option Char :=
  if c = 'n' then some '\n'
  else if c = 't' then some '\t'
  else if c = 'r' then some '\r'
  else if c = '"' || c = '\\' || c = '/' then some c
  else Option.none

/-- Strip an expected literal from the front of the input, returning the
remainder on success. -/
def dropLit : List Char → List Char → Option (List Char)
  | [], cs => some cs
  | _ :: _, [] => Option.none
  | l :: ls, c :: cs => if c = l then dropLit ls cs else Option.none

/-- Parse the body of a JSON string after the opening quote, returning the
decoded characters and the remaining input. -/
def parseStringBody : List Char → Option (List Char × List Char)
  | [] => Option.none
  | '"' :: rest => some ([], rest)
  | '\\' :: c :: rest => do
    let e ← escChar c
    let (s, r) ← parseStringBody rest
    some (e :: s, r)
  | c :: rest => do
    let (s, r) ← parseStringBody rest
    some (c :: s, r)

/-- Decimal digits to a natural number. -/
def digitsToNat (ds : List Char) : Nat :=
  ds.foldl (fun n c => n * 10 + (c.toNat - 48)) 0

/-- Parse a JSON number (integer or decimal fraction), modelling the
external JSON parser's number production on finite decimals. -/
def parseNumber (cs : List Char) : Option (Value × List Char) :=
  let signed : Int × List Char :=
    match cs with
    | '-' :: rest => (-1, rest)
    | '+' :: rest => (1, rest)
    | _ => (1, cs)
  let sign := signed.1
  let cs₁ := signed.2
  let intDs := cs₁.takeWhile Char.isDigit
  let cs₂ := cs₁.dropWhile Char.isDigit
  match cs₂ with
  | '.' :: cs₃ =>
    let fracDs := cs₃.takeWhile Char.isDigit
    let cs₄ := cs₃.dropWhile Char.isDigit
    if intDs.isEmpty && fracDs.isEmpty then Option.none
    else
      let q : Rat :=
        ((sign * (digitsToNat intDs * 10 ^ fracDs.length + digitsToNat fracDs) : Int) : Rat) /
          ((10 : Rat) ^ fracDs.length)
      some (.float q, cs₄)
  | _ =>
    if intDs.isEmpty then Option.none
    else some (.int (sign * digitsToNat intDs), cs₂)

/-- Fuel-indexed triple of parsers for a JSON value, the tail of a JSON
array, and the tail of a JSON object.  Models the external JSON parser
(json.loads) that the engine delegates container parsing to. -/
def jsonParseFns : Nat →
    (List Char → Option (Value × List Char)) ×
    (List Char → Option (List Value × List Char)) ×
    (List Char → Option (List (String × Value) × List Char))
  | 0 => (fun _ => Option.none, fun _ => Option.none, fun _ => Option.none)
  | fuel + 1 =>
    let pv := (jsonParseFns fuel).1
    let pa := (jsonParseFns fuel).2.1
    let po := (jsonParseFns fuel).2.2
    ( fun cs =>
        match skipWs cs with
        | [] => Option.none
        | c :: rest =>
          if c = '"' then do
            let (s, r) ← parseStringBody rest
            some (.str (String.mk s), r)
          else if c = '[' then
            match skipWs rest with
            | ']' :: r => some (.list [], r)
            | cs₂ => do
              let (xs, r) ← pa cs₂
              some (.list xs, r)
          else if c = lbrace then
            match skipWs rest with
            | [] => Option.none
            | c₂ :: r =>
              if c₂ = rbrace then some (.dict [], r)
              else do
                let (kvs, r₂) ← po (c₂ :: r)
                some (.dict kvs, r₂)
          else
            match dropLit "null".toList (c :: rest) with
            | some r => some (.none, r)
            | Option.none =>
              match dropLit "true".toList (c :: rest) with
              | some r => some (.bool true, r)
              | Option.none =>
                match dropLit "false".toList (c :: rest) with
                | some r => some (.bool false, r)
                | Option.none => parseNumber (c :: rest),
      fun cs => do
        let (v, r) ← pv cs
        match skipWs r with
        | ',' :: r₂ => do
          let (xs, r₃) ← pa r₂
          some (v :: xs, r₃)
        | ']' :: r₂ => some ([v], r₂)
        | _ => Option.none,
      fun cs =>
        match skipWs cs with
        | '"' :: rest => do
          let (k, r) ← parseStringBody rest
          match skipWs r with
          | ':' :: r₂ => do
            let (v, r₃) ← pv r₂
            match skipWs r₃ with
            | [] => Option.none
            | c :: r₄ =>
              if c = ',' then do
                let (kvs, r₅) ← po r₄
                some ((String.mk k, v) :: kvs, r₅)
              else if c = rbrace then some ([(String.mk k, v)], r₄)
              else Option.none
          | _ => Option.none
        | _ => Option.none )

/-- Model of json.loads: parse a full JSON document, failing (like
json.JSONDecodeError) on malformed input or trailing garbage. -/
def jsonLoads (s : String) : Except ConvError Value :=
  match (jsonParseFns (4 * s.length + 8)).1 s.toList with
  | some (v, rest) =>
    if (skipWs rest).isEmpty then .ok v else .error (.jsonDecode s)
  | Option.none => .error (.jsonDecode s)

/-- Model of Python int(string) on decimal literals: optional surrounding
whitespace, optional sign, at least one digit. -/
def pyIntParse (s : String) : Option Int :=
  let t := (skipWs s.toList).reverse.dropWhile isWsChar |>.reverse
  let signed : Bool × List Char :=
    match t with
    | '-' :: rest => (true, rest)
    | '+' :: rest => (false, rest)
    | _ => (false, t)
  let core := signed.2
  if core.length > 0 && core.all Char.isDigit then
    some (if signed.1 then -(digitsToNat core : Int) else (digitsToNat core : Int))
  else
    Option.none

/-- Model of Python float(string) on finite decimal literals: optional
surrounding whitespace, optional sign, digits with an optional fractional
part, at least one digit overall. -/
def pyFloatParse (s : String) : Option Rat :=
  let t := (skipWs s.toList).reverse.dropWhile isWsChar |>.reverse
  let signed : Int × List Char :=
    match t with
    | '-' :: rest => (-1, rest)
    | '+' :: rest => (1, rest)
    | _ => (1, t)
  let sign := signed.1
  let cs₁ := signed.2
  let intDs := cs₁.takeWhile Char.isDigit
  let cs₂ := cs₁.dropWhile Char.isDigit
  let fracSplit : List Char × List Char :=
    match cs₂ with
    | '.' :: r => (r.takeWhile Char.isDigit, r.dropWhile Char.isDigit)
    | _ => ([], cs₂)
  let fracDs := fracSplit.1
  let cs₃ := fracSplit.2
  if intDs.isEmpty && fracDs.isEmpty then Option.none
  else if cs₃.isEmpty then
    some (((sign * (digitsToNat intDs * 10 ^ fracDs.length + digitsToNat fracDs) : Int) : Rat) /
      ((10 : Rat) ^ fracDs.length))
  else Option.none

/-- Conversion of a string to one atomic target type: the non-union
branches of `_convert_value_to_type`.  Parameterized list/dict generics
take the same JSON branch as the bare types (the source ignores the type
parameters), bools use the textual vocabulary, numerics delegate to the
host parser models, and an unrecognized target type falls through to
returning the raw string unchanged. -/
def convertAtom (s : String) : PyAtom → Except ConvError Value
  | .listOf _ =>
    match jsonLoads s with
    | .error _ => .error (.jsonDecode s)
    | .ok v =>
      match v with
      | .list xs => .ok (.list xs)
      | _ => .error (.notAList s)
  | .dictOf _ _ =>
    match jsonLoads s with
    | .error _ => .error (.jsonDecode s)
    | .ok v =>
      match v with
      | .dict kvs => .ok (.dict kvs)
      | _ => .error (.notADict s)
  | .bool =>
    let normalized := lowerStr s
    if normalized ∈ ["true", "1", "yes", "on"] then .ok (.bool true)
    else if normalized ∈ ["false", "0", "no", "off"] then .ok (.bool false)
    else .error (.invalidBool s)
  | .int =>
    match pyIntParse s with
    | some n => .ok (.int n)
    | Option.none => .error (.invalidInt s)
  | .float =>
    match pyFloatParse s with
    | some q => .ok (.float q)
    | Option.none => .error (.invalidFloat s)
  | .str => .ok (.str s)
  | .list =>
    match jsonLoads s with
    | .error _ => .error (.jsonDecode s)
    | .ok v =>
      match v with
      | .list xs => .ok (.list xs)
      | _ => .error (.notAList s)
  | .dict =>
    match jsonLoads s with
    | .error _ => .error (.jsonDecode s)
    | .ok v =>
      match v with
      | .dict kvs => .ok (.dict kvs)
      | _ => .error (.notADict s)
  | .noneType => .ok (.str s)
  | .custom _ => .ok (.str s)

/-- The union loop of `_convert_value_to_type`: try each member in
declared order, skipping NoneType, returning the first conversion that
does not raise; if all members fail, raise the ValueError that carries the
union's argument tuple. -/
def tryUnion (s : String) (orig : List PyAtom) : List PyAtom → Except ConvError Value
  | [] => .error (.unionExhausted s orig)
  | t :: ts =>
    if t = .noneType then tryUnion s orig ts
    else
      match convertAtom s t with
      | .ok v => .ok v
      | .error _ => tryUnion s orig ts

/-- Embedding of `_convert_value_to_type`: a non-string value (None
included) is returned unchanged; a string is dispatched on the annotation,
with the union branch first testing the case-insensitive "none" sentinel
when NoneType is a member. -/
def convert_value_to_type (value : Value) (to_type : PyType) : Except ConvError Value :=
  match value with
  | .str s =>
    match to_type with
    | .union args =>
      if args.contains .noneType && lowerStr s == "none" then .ok .none
      else tryUnion s args args
    | .atom a => convertAtom s a
  | v => .ok v

/-- Per-class storage of settings, mirroring `MetaCheapSettings.ConfigInstance`:
`attrs` holds the default values moved off the class dict by `__new__`
(a setting declared with only an annotation has no entry), and `annots`
holds the collected type annotations. -/
structure ConfigInstance : Type where
  attrs : List (String × Value)
  annots : List (String × PyType)

/-- Assoc-list update, mirroring Python setattr on a ConfigInstance:
replace the entry for the key if present, else append it. -/
def setEntry (l : List (String × Value)) (k : String) (v : Value) : List (String × Value) :=
  match l with
  | [] => [(k, v)]
  | (k₀, v₀) :: rest => if k₀ = k then (k, v) :: rest else (k₀, v₀) :: setEntry rest k v

/-- The environment branch of `MetaCheapSettings.__getattribute__`: with a
raw environment string in hand, convert it via the attribute's annotation
when one exists, else return it as a plain string. -/
def envCoerce (annots : List (String × PyType)) (attrName : String) (envAttr : String) :
    Except ConvError Value :=
  match annots.lookup attrName with
  | some t => convert_value_to_type (.str envAttr) t
  | Option.none => .ok (.str envAttr)

/-- Embedding of `MetaCheapSettings.__getattribute__` for one settings
class: when the ConfigInstance stores the attribute, read the environment
variable named by the upper-cased attribute first and fall back to the
stored default; when the ConfigInstance does not store it, fall through to
plain class attribute lookup (modelled as `Option.none`). -/
def metaGetattr (env : List (String × String)) (cfg : ConfigInstance) (attrName : String) :
    Option (Except ConvError Value) :=
  match cfg.attrs.lookup attrName with
  | some default =>
    some
      (match env.lookup (upperStr attrName) with
       | some envAttr => envCoerce cfg.annots attrName envAttr
       | Option.none => .ok default)
  | Option.none => Option.none

/-- Embedding of `MetaCheapSettings.__setattr__`: a runtime assignment to a
settings attribute stores the value on the ConfigInstance (updating the
default), touching nothing else. -/
def metaSetattr (cfg : ConfigInstance) (attrName : String) (value : Value) : ConfigInstance :=
  { cfg with attrs := setEntry cfg.attrs attrName value }

/-- Modelled from the spec: full resolution pipeline of section 4.3.  Step 1
(the OverrideStore consultation) and step 4 (a setting with no stored
default resolves to None) are implemented in the repository but missing
from the src snapshot, whose `__getattribute__` only covers steps 2 and 3;
those two steps below follow the src code verbatim. -/
def resolve (overrides : List (String × Value)) (env : List (String × String))
    (cfg : ConfigInstance) (attrName : String) : Except ConvError Value :=
  match overrides.lookup attrName with
  | some c => .ok c
  | Option.none =>
    match env.lookup (upperStr attrName) with
    | some envAttr => envCoerce cfg.annots attrName envAttr
    | Option.none =>
      match cfg.attrs.lookup attrName with
      | some d => .ok d
      | Option.none => .ok .none

/-- The container kind a setting's annotation requests: list or dict. -/
inductive ContainerKind : Type where
  | clist
  | cdict
  deriving DecidableEq

/-- Render a requested container kind the way Python names the type. -/
def kindName : ContainerKind → String
  | .clist => "list"
  | .cdict => "dict"

/-- Python type name of a parsed JSON value, as used in error messages. -/
def shapeName : Value → String
  | .none => "NoneType"
  | .bool _ => "bool"
  | .int _ => "int"
  | .float _ => "float"
  | .str _ => "str"
  | .list _ => "list"
  | .dict _ => "dict"

/-- Does a parsed JSON value have the requested container shape? -/
def containerShapeMatches : ContainerKind → Value → Bool
  | .clist, .list _ => true
  | .cdict, .dict _ => true
  | _, _ => false

/-- Errors of the environment-aware container coercion: malformed JSON and
JSON type mismatch, each carrying the environment-variable name. -/
inductive EnvError : Type where
  | malformedJSON (envVar raw : String)
  | jsonTypeMismatch (envVar expected actual : String)

/-- Rendered message of an environment-aware container coercion error,
modelled from the spec's error taxonomy (section 7) and the message shapes
asserted by tests/test_error_messages.py. -/
def EnvError.message : EnvError → String
  | .malformedJSON envVar raw =>
    "Invalid JSON in " ++ (envVar ++ (" environment variable. Your value: \"" ++
      (raw ++ "\". Use double quotes for strings, and [] or " ++
        (String.singleton lbrace ++ (String.singleton rbrace ++ " for empty containers.")))))
  | .jsonTypeMismatch envVar expected actual =>
    "JSON type mismatch in " ++ (envVar ++ (" environment variable. Expected: " ++
      (expected ++ (". Got: " ++ (actual ++ (". If the value is what you want, change the type annotation to " ++
        (actual ++ ".")))))))

/-- Modelled from the spec: the environment-aware container coercion of
section 4.2.  The src snapshot's `_convert_value_to_type` never receives
the environment-variable name and raises bare errors (a marked TODO); the
repository's released coercion produces the detailed malformed-JSON and
type-mismatch errors that tests/test_error_messages.py asserts.  Parse the
raw string strictly as JSON and check the parsed shape against the
requested container kind. -/
def convertContainerEnv (envVar : String) (expected : ContainerKind) (raw : String) :
    Except EnvError Value :=
  match jsonLoads raw with
  | .error _ => .error (.malformedJSON envVar raw)
  | .ok v =>
    if containerShapeMatches expected v then .ok v
    else .error (.jsonTypeMismatch envVar (kindName expected) (shapeName v))

/-- A member named from_string exposed by a custom target type: whether it
is invocable as a type-level function (classmethod/staticmethod), and the
conversion it performs when invoked. -/
structure FromStringMember : Type where
  typeLevelCallable : Bool
  call : String → Except ConvError Value

/-- A custom target type as the coercion hook sees it: it may or may not
expose a member named from_string. -/
structure CustomTypeDesc : Type where
  fromStringMember : Option FromStringMember

/-- Modelled from the spec: the extensible custom-type hook of section 4.2,
implemented in the repository (tests/test_from_string.py asserts it) but
missing from the src snapshot, whose `_convert_value_to_type` ends in a
bare pass-through.  When the target type exposes a from_string member that
is invocable as a type-level function, invoke it and return its result
(errors included) unwrapped; otherwise fall back to the raw string. -/
def customCoerce (t : CustomTypeDesc) (raw : String) : Except ConvError Value :=
  match t.fromStringMember with
  | some m => if m.typeLevelCallable then m.call raw else .ok (.str raw)
  | Option.none => .ok (.str raw)

/-- Embedding of `_convert_to_argument_name`: lower-case the attribute name
and replace underscores with dashes. -/
def convert_to_argument_name (name : String) : String :=
  String.mk ((lowerStr name).toList.map (fun c => if c = '_' then '-' else c))

/-- Embedding of `_bool_str_to_bool` from command_line.py. -/
def bool_str_to_bool (value : String) : Except ConvError Bool :=
  let normalized := lowerStr value
  if normalized ∈ ["true", "1", "yes", "on"] then .ok true
  else if normalized ∈ ["false", "0", "no", "off"] then .ok false
  else .error (.invalidBool value)

/-- Runtime type of a default value, modelling Python type(x).  (The
source's `type(argument_default) or str` never takes the `or str` branch
because a type object is always truthy.) -/
def pyTypeOfValue : Value → PyAtom
  | .none => .noneType
  | .bool _ => .bool
  | .int _ => .int
  | .float _ => .float
  | .str _ => .str
  | .list _ => .list
  | .dict _ => .dict

/-- The origin/args stripping step of `_get_arg_parser`: for a type with a
non-None typing origin (a union or a parameterized generic), replace it by
its first type argument that is not NoneType; a union of only NoneType is
left unchanged because the source loop never assigns. -/
def stripOrigin : PyType → PyType
  | .union args =>
    match args.find? (fun a => a != .noneType) with
    | some a => .atom a
    | Option.none => .union args
  | .atom (.listOf t) => .atom t
  | .atom (.dictOf k _) => .atom k
  | t => t

/-- The argparse type a registered flag converts its token with: a Python
type, or the `_bool_str_to_bool` function for bool settings without a
boolean default. -/
inductive ArgType : Type where
  | ofType (t : PyType)
  | boolFunc

/-- The argparse action a flag is registered with. -/
inductive ArgAction : Type where
  | store
  | storeTrue
  | storeFalse

/-- One registered command-line flag: its literal flag string, its token
converter (absent for store_true/store_false), its action and its dest. -/
structure ArgSpec : Type where
  flag : String
  type? : Option ArgType
  action : ArgAction
  dest : String

/-- Effective argparse type of one setting in `_get_arg_parser`: the
declared annotation, or the runtime type of the default when there is no
annotation, after origin/args stripping. -/
def effectiveArgType (annots : List (String × PyType)) (attrs : List (String × Value))
    (name : String) : PyType :=
  stripOrigin
    (match annots.lookup name with
     | some t => t
     | Option.none => .atom (pyTypeOfValue ((attrs.lookup name).getD .none)))

/-- Embedding of one iteration of the `_get_arg_parser` loop: skip private
names, reject reserved argparse names, then register a flag driven by the
effective argparse type — bool settings get store_true / a negated
store_false flag / the bool parsing function depending on their default,
and a bare list or dict effective type is skipped entirely (`Option.none`,
no flag registered). -/
def makeArgument (annots : List (String × PyType)) (attrs : List (String × Value))
    (name : String) : Except String (Option ArgSpec) :=
  match name.toList with
  | '_' :: _ => .ok Option.none
  | _ =>
    if lowerStr name ∈ ["help", "h"] then
      .error ("Cannot use " ++ name ++ " as a setting name because it conflicts with argparse built-in options. Reserved names: h, help")
    else
      let argumentName := convert_to_argument_name name
      let argumentDefault : Value := (attrs.lookup name).getD .none
      let argumentType := effectiveArgType annots attrs name
      if argumentType = .atom .bool then
        match argumentDefault with
        | .none => .ok (some ⟨"--" ++ argumentName, some .boolFunc, .store, name⟩)
        | .bool false => .ok (some ⟨"--" ++ argumentName, Option.none, .storeTrue, name⟩)
        | .bool true => .ok (some ⟨"--no-" ++ argumentName, Option.none, .storeFalse, name⟩)
        | _ => .ok (some ⟨"--" ++ argumentName, some (.ofType argumentType), .store, name⟩)
      else if argumentType = .atom .list ∨ argumentType = .atom .dict then
        .ok Option.none
      else
        .ok (some ⟨"--" ++ argumentName, some (.ofType argumentType), .store, name⟩)

/-- Python substring containment (the `in` operator on str) on char lists:
the needle is a prefix of some suffix of the haystack. -/
def charsInfix (needle : List Char) : List Char → Bool
  | [] => needle.isEmpty
  | c :: rest => List.isPrefixOf needle (c :: rest) || charsInfix needle rest

/-- Python substring containment: `needle in hay`. -/
def isSubstrOf (needle hay : String) : Bool :=
  charsInfix needle.toList hay.toList

/-- Python " ".join, with the source's `if provided_args else ""` guard
subsumed by the empty-list case. -/
def joinWithSpaces : List String → String
  | [] => ""
  | x :: xs => xs.foldl (fun acc s => acc ++ " " ++ s) x

/-- Embedding of `_incorporate_parsed_arguments`: walk the parsed argparse
namespace; for every dest that is a known setting (stored attribute or
annotation), write its parsed value into the CLI override store when the
flag string (or its no- variant) occurs in the space-joined provided
tokens — the source performs a substring test on the joined string, not a
membership test on the token list. -/
def incorporate_parsed_arguments (args : List (String × Value))
    (configAttrs : List (String × Value)) (annots : List (String × PyType))
    (cliStore : List (String × Value)) (providedArgs : List String) :
    List (String × Value) :=
  let argsStr := joinWithSpaces providedArgs
  args.foldl
    (fun store nv =>
      if (configAttrs.lookup nv.1).isSome || (annots.lookup nv.1).isSome then
        let argName := "--" ++ convert_to_argument_name nv.1
        let noArgName := "--no-" ++ convert_to_argument_name nv.1
        if isSubstrOf argName argsStr || isSubstrOf noArgName argsStr then
          setEntry store nv.1 nv.2
        else store
      else store)
    cliStore

/-- Whether a runtime value is a Python string. -/
def Value.isString : Value → Bool
  | .str _ => true
  | _ => false

/-- Updating an assoc list at a key makes lookup at that key return the new
value. -/
theorem lookup_setEntry_self (l : List (String × Value)) (k : String) (v : Value) :
    (setEntry l k v).lookup k = some v := by
  induction l with
  | nil => simp [setEntry, List.lookup]
  | cons hd tl ih =>
    obtain ⟨k₀, v₀⟩ := hd
    by_cases hk : k₀ = k
    · simp [setEntry, hk, List.lookup]
    · have hb : (k == k₀) = false := by
        simp [beq_iff_eq]
        exact fun h => hk h.symm
      simp [setEntry, hk, List.lookup, hb, ih]

/-- C9. Coercion is the identity on non-string input: for every value that
is not a string and every target type, `_convert_value_to_type` returns
the value unchanged, raising nothing. -/
theorem non_string_coercion_identity (v : Value) (t : PyType) (h : v.isString = false) :
    convert_value_to_type v t = .ok v := by
  cases v <;> first
    | rfl
    | exact absurd h (by simp [Value.isString])

/-- Witness for C9 at a concrete non-string input. -/
theorem non_string_coercion_identity_witness :
    (Value.int 5).isString = false ∧
      convert_value_to_type (.int 5) (.atom .bool) = .ok (.int 5) :=
  ⟨rfl, non_string_coercion_identity (.int 5) (.atom .bool) rfl⟩

/-- C8. The boolean textual vocabulary: a string whose lower-casing lies in
the truthy set yields True, one in the falsy set yields False, and any
other string raises the "not a valid boolean" error — both in
`_convert_value_to_type` and in command_line.py's `_bool_str_to_bool`. -/
theorem bool_vocabulary_coercion (s : String) :
    (lowerStr s ∈ ["true", "1", "yes", "on"] →
      convert_value_to_type (.str s) (.atom .bool) = .ok (.bool true) ∧
        bool_str_to_bool s = .ok true)
  ∧ (lowerStr s ∈ ["false", "0", "no", "off"] →
      convert_value_to_type (.str s) (.atom .bool) = .ok (.bool false) ∧
        bool_str_to_bool s = .ok false)
  ∧ (lowerStr s ∉ ["true", "1", "yes", "on"] → lowerStr s ∉ ["false", "0", "no", "off"] →
      convert_value_to_type (.str s) (.atom .bool) = .error (.invalidBool s) ∧
        bool_str_to_bool s = .error (.invalidBool s)) := by
  refine ⟨?_, ?_, ?_⟩
  · intro h
    constructor <;> simp [convert_value_to_type, convertAtom, bool_str_to_bool, h]
  · intro h
    have hnt : lowerStr s ∉ ["true", "1", "yes", "on"] := by
      simp only [List.mem_cons, List.not_mem_nil, or_false] at h ⊢
      rcases h with h | h | h | h <;> simp [h]
    constructor <;>
      simp [convert_value_to_type, convertAtom, bool_str_to_bool, h, hnt]
  · intro ht hf
    constructor <;>
      simp [convert_value_to_type, convertAtom, bool_str_to_bool, ht, hf]

/-- Witness for C8 at one truthy, one falsy and one invalid input. -/
theorem bool_vocabulary_coercion_witness :
    (lowerStr "YES" ∈ ["true", "1", "yes", "on"] ∧
      convert_value_to_type (.str "YES") (.atom .bool) = .ok (.bool true))
  ∧ (lowerStr "Off" ∈ ["false", "0", "no", "off"] ∧
      convert_value_to_type (.str "Off") (.atom .bool) = .ok (.bool false))
  ∧ (lowerStr "maybe" ∉ ["true", "1", "yes", "on"] ∧
      bool_str_to_bool "maybe" = .error (.invalidBool "maybe")) :=
  ⟨⟨by decide, ((bool_vocabulary_coercion "YES").1 (by decide)).1⟩,
   ⟨by decide, ((bool_vocabulary_coercion "Off").2.1 (by decide)).1⟩,
   ⟨by decide, ((bool_vocabulary_coercion "maybe").2.2 (by decide) (by decide)).2⟩⟩

/-- C1. Precedence of resolution: an OverrideStore entry wins; otherwise a
set environment variable (attribute name upper-cased) is coerced through
the annotation; otherwise the stored default is returned. -/
theorem resolve_respects_precedence (ov : List (String × Value)) (env : List (String × String))
    (cfg : ConfigInstance) (a : String) :
    (∀ c, ov.lookup a = some c → resolve ov env cfg a = .ok c)
  ∧ (ov.lookup a = Option.none → ∀ e, env.lookup (upperStr a) = some e →
      ∀ t, cfg.annots.lookup a = some t →
        resolve ov env cfg a = convert_value_to_type (.str e) t)
  ∧ (ov.lookup a = Option.none → env.lookup (upperStr a) = Option.none →
      ∀ d, cfg.attrs.lookup a = some d → resolve ov env cfg a = .ok d) := by
  refine ⟨?_, ?_, ?_⟩
  · intro c hc
    unfold resolve
    rw [hc]
  · intro ho e he t ht
    unfold resolve envCoerce
    rw [ho, he, ht]
  · intro ho he d hd
    unfold resolve
    rw [ho, he, hd]

/-- Witness for C1: override beats environment beats default on a concrete
port setting. -/
theorem resolve_respects_precedence_witness :
    resolve [("port", .int 9999)] [("PORT", "9000")]
        ⟨[("port", .int 8080)], [("port", .atom .int)]⟩ "port" = .ok (.int 9999)
  ∧ resolve [] [("PORT", "9000")]
        ⟨[("port", .int 8080)], [("port", .atom .int)]⟩ "port" = .ok (.int 9000)
  ∧ resolve [] [] ⟨[("port", .int 8080)], [("port", .atom .int)]⟩ "port" = .ok (.int 8080) :=
  ⟨(resolve_respects_precedence [("port", .int 9999)] [("PORT", "9000")]
      ⟨[("port", .int 8080)], [("port", .atom .int)]⟩ "port").1 (.int 9999) rfl,
   ((resolve_respects_precedence [] [("PORT", "9000")]
      ⟨[("port", .int 8080)], [("port", .atom .int)]⟩ "port").2.1 rfl "9000" rfl
      (.atom .int) rfl).trans rfl,
   (resolve_respects_precedence [] []
      ⟨[("port", .int 8080)], [("port", .atom .int)]⟩ "port").2.2 rfl rfl (.int 8080) rfl⟩

/-- C4. A setting with no stored default resolves to None when neither an
override nor an environment variable supplies a value, and resolves to the
coerced (or, without an annotation, pass-through) environment value when
the environment variable is set. -/
theorem missing_default_resolution (ov : List (String × Value)) (env : List (String × String))
    (cfg : ConfigInstance) (a : String) (hnod : cfg.attrs.lookup a = Option.none) :
    (ov.lookup a = Option.none → env.lookup (upperStr a) = Option.none →
      resolve ov env cfg a = .ok .none)
  ∧ (ov.lookup a = Option.none → ∀ e, env.lookup (upperStr a) = some e →
      resolve ov env cfg a = envCoerce cfg.annots a e) := by
  constructor
  · intro ho he
    unfold resolve
    rw [ho, he, hnod]
  · intro ho e he
    unfold resolve
    rw [ho, he]

/-- Witness for C4 on a setting declared with only an annotation. -/
theorem missing_default_resolution_witness :
    resolve [] [] ⟨[], [("api_key", .atom .str)]⟩ "api_key" = .ok .none
  ∧ resolve [] [("API_KEY", "secret123")] ⟨[], [("api_key", .atom .str)]⟩ "api_key" =
      .ok (.str "secret123") :=
  ⟨(missing_default_resolution [] [] ⟨[], [("api_key", .atom .str)]⟩ "api_key" rfl).1 rfl rfl,
   ((missing_default_resolution [] [("API_KEY", "secret123")]
      ⟨[], [("api_key", .atom .str)]⟩ "api_key" rfl).2 rfl "secret123" rfl).trans rfl⟩

/-- C10. Runtime assignment only updates the stored default: after
`__setattr__`, a read through `__getattribute__` still returns the coerced
environment value whenever the environment variable is set, whatever value
was assigned. -/
theorem assignment_preserves_env_precedence (env : List (String × String))
    (cfg : ConfigInstance) (a : String) (v : Value) (e : String)
    (henv : env.lookup (upperStr a) = some e) :
    metaGetattr env (metaSetattr cfg a v) a = some (envCoerce cfg.annots a e) := by
  simp [metaGetattr, metaSetattr, lookup_setEntry_self, henv]

/-- Witness for C10: assigning 1234 to a port whose environment variable is
set still reads back the coerced environment value 9000. -/
theorem assignment_preserves_env_precedence_witness :
    metaGetattr [("PORT", "9000")]
        (metaSetattr ⟨[("port", .int 8080)], [("port", .atom .int)]⟩ "port" (.int 1234))
        "port" = some (.ok (.int 9000)) :=
  (assignment_preserves_env_precedence [("PORT", "9000")]
      ⟨[("port", .int 8080)], [("port", .atom .int)]⟩ "port" (.int 1234) "9000" rfl).trans rfl

/-- C5. The from_string hook: when the target type exposes a from_string
member invocable as a type-level function, coercion invokes it and returns
its result — errors included — unwrapped; when the exposed member is not
invocable as a type-level function, coercion falls back to the raw
string unchanged. -/
theorem from_string_hook_dispatch (t : CustomTypeDesc) (raw : String) (m : FromStringMember)
    (hm : t.fromStringMember = some m) :
    (m.typeLevelCallable = true → customCoerce t raw = m.call raw)
  ∧ (m.typeLevelCallable = true → ∀ e, m.call raw = .error e → customCoerce t raw = .error e)
  ∧ (m.typeLevelCallable = false → customCoerce t raw = .ok (.str raw)) := by
  refine ⟨?_, ?_, ?_⟩ <;> intro h <;> simp_all [customCoerce]

/-- Witness for C5: a type-level from_string propagates its error verbatim,
and an instance-level from_string member falls back to the raw string. -/
theorem from_string_hook_dispatch_witness :
    customCoerce ⟨some ⟨true, fun s => .error (.invalidInt s)⟩⟩ "21" =
      .error (.invalidInt "21")
  ∧ customCoerce ⟨some ⟨false, fun _ => .ok .none⟩⟩ "test" = .ok (.str "test") :=
  ⟨(from_string_hook_dispatch ⟨some ⟨true, fun s => .error (.invalidInt s)⟩⟩ "21"
      ⟨true, fun s => .error (.invalidInt s)⟩ rfl).2.1 rfl (.invalidInt "21") rfl,
   (from_string_hook_dispatch ⟨some ⟨false, fun _ => .ok .none⟩⟩ "test"
      ⟨false, fun _ => .ok .none⟩ rfl).2.2 rfl⟩

/-- C6 counterexample. A setting annotated with the parameterized container
type list[str] IS registered as a flag: the origin-stripping loop replaces
list[str] by str before the container check, so `_get_arg_parser` adds a
--tags argument of type str. -/
theorem parameterized_container_flag_registered :
    makeArgument [("tags", .atom (.listOf .str))] [("tags", .list [])] "tags" =
      .ok (some ⟨"--tags", some (.ofType (.atom .str)), .store, "tags"⟩) := rfl

/-- C6 amended. A setting whose effective argparse type — the annotation,
or the runtime type of the default when unannotated, after union and
generic parameters are stripped to the first non-None type argument — is
the bare list or dict type is not registered as a flag. -/
theorem bare_container_not_registered (annots : List (String × PyType))
    (attrs : List (String × Value)) (name : String)
    (hres : lowerStr name ∉ ["help", "h"])
    (h : effectiveArgType annots attrs name = .atom .list ∨
      effectiveArgType annots attrs name = .atom .dict) :
    makeArgument annots attrs name = .ok Option.none := by
  unfold makeArgument
  split
  · rfl
  · rw [if_neg hres]
    rcases h with h | h <;> simp [h]

/-- Witness for C6 amended: a bare-list annotated setting gets no flag. -/
theorem bare_container_not_registered_witness :
    lowerStr "tags" ∉ ["help", "h"] ∧
      makeArgument [("tags", .atom .list)] [("tags", .list [])] "tags" = .ok Option.none :=
  ⟨by decide,
   bare_container_not_registered [("tags", .atom .list)] [("tags", .list [])] "tags"
     (by decide) (Or.inl rfl)⟩

/-- C2. Container coercion with a well-formed JSON value of the wrong
shape raises the type-mismatch error, and that error's message names the
environment variable, the expected container kind and the actual parsed
kind (each occurs as a contiguous piece of the message). -/
theorem container_env_type_mismatch (envVar raw : String) (expected : ContainerKind)
    (v : Value) (hparse : jsonLoads raw = .ok v)
    (hshape : containerShapeMatches expected v = false) :
    convertContainerEnv envVar expected raw =
      .error (.jsonTypeMismatch envVar (kindName expected) (shapeName v))
  ∧ (∃ l r, (EnvError.jsonTypeMismatch envVar (kindName expected) (shapeName v)).message =
      l ++ (envVar ++ r))
  ∧ (∃ l r, (EnvError.jsonTypeMismatch envVar (kindName expected) (shapeName v)).message =
      l ++ (kindName expected ++ r))
  ∧ (∃ l r, (EnvError.jsonTypeMismatch envVar (kindName expected) (shapeName v)).message =
      l ++ (shapeName v ++ r)) := by
  refine ⟨by simp [convertContainerEnv, hparse, hshape], ?_, ?_, ?_⟩
  · exact ⟨"JSON type mismatch in ",
      " environment variable. Expected: " ++ (kindName expected ++ (". Got: " ++
        (shapeName v ++ (". If the value is what you want, change the type annotation to " ++
          (shapeName v ++ "."))))), rfl⟩
  · exact ⟨"JSON type mismatch in " ++ (envVar ++ " environment variable. Expected: "),
      ". Got: " ++ (shapeName v ++
        (". If the value is what you want, change the type annotation to " ++
          (shapeName v ++ "."))),
      by simp [EnvError.message, String.append_assoc]⟩
  · exact ⟨"JSON type mismatch in " ++ (envVar ++ (" environment variable. Expected: " ++
        (kindName expected ++ ". Got: "))),
      ". If the value is what you want, change the type annotation to " ++
        (shapeName v ++ "."),
      by simp [EnvError.message, String.append_assoc]⟩

/-- Witness for C2 on the spec's round-trip scenario: TAGS set to a JSON
object while the annotation requests a list. -/
theorem container_env_type_mismatch_witness :
    jsonLoads (String.singleton lbrace ++ "\"a\": 1" ++ String.singleton rbrace) =
      .ok (.dict [("a", .int 1)])
  ∧ containerShapeMatches .clist (.dict [("a", .int 1)]) = false
  ∧ convertContainerEnv "TAGS" .clist
      (String.singleton lbrace ++ "\"a\": 1" ++ String.singleton rbrace) =
      .error (.jsonTypeMismatch "TAGS" "list" "dict") :=
  ⟨rfl, rfl,
   (container_env_type_mismatch "TAGS"
      (String.singleton lbrace ++ "\"a\": 1" ++ String.singleton rbrace) .clist
      (.dict [("a", .int 1)]) rfl rfl).1⟩

/-- The union loop returns the first member conversion that succeeds, when
every earlier member is NoneType (skipped) or raises. -/
theorem tryUnion_append_success (s : String) (orig : List PyAtom) (t : PyAtom)
    (post : List PyAtom) (v : Value) :
    ∀ pre : List PyAtom,
      (∀ u ∈ pre, u = .noneType ∨ ∃ e, convertAtom s u = .error e) →
      t ≠ .noneType → convertAtom s t = .ok v →
      tryUnion s orig (pre ++ t :: post) = .ok v := by
  intro pre
  induction pre with
  | nil =>
    intro _ hne hok
    rw [List.nil_append]
    unfold tryUnion
    rw [if_neg hne, hok]
  | cons u us ih =>
    intro hpre hne hok
    rw [List.cons_append]
    unfold tryUnion
    by_cases hu : u = .noneType
    · rw [if_pos hu]
      exact ih (fun x hx => hpre x (List.mem_cons_of_mem _ hx)) hne hok
    · rw [if_neg hu]
      rcases hpre u (List.mem_cons_self _ _) with h | ⟨e, he⟩
      · exact absurd h hu
      · rw [he]
        exact ih (fun x hx => hpre x (List.mem_cons_of_mem _ hx)) hne hok

/-- When every union member is NoneType or raises, the union loop raises
the exhaustion error carrying the original argument tuple. -/
theorem tryUnion_all_fail (s : String) (orig : List PyAtom) :
    ∀ l : List PyAtom,
      (∀ t ∈ l, t = .noneType ∨ ∃ e, convertAtom s t = .error e) →
      tryUnion s orig l = .error (.unionExhausted s orig) := by
  intro l
  induction l with
  | nil => intro _; rfl
  | cons t ts ih =>
    intro h
    unfold tryUnion
    by_cases ht : t = .noneType
    · rw [if_pos ht]
      exact ih (fun x hx => h x (List.mem_cons_of_mem _ hx))
    · rw [if_neg ht]
      rcases h t (List.mem_cons_self _ _) with h0 | ⟨e, he⟩
      · exact absurd h0 ht
      · rw [he]
        exact ih (fun x hx => h x (List.mem_cons_of_mem _ hx))

/-- C3. Union dispatch: the case-insensitive "none" sentinel yields None
whenever NoneType is a union member, regardless of the other members;
otherwise the members are attempted in declared order, skipping NoneType,
and the first conversion that does not raise wins; when every member is
NoneType or raises, the exhaustion error carrying the union's argument
tuple (the attempted member types among them) is raised. -/
theorem union_dispatch_behavior (s : String) (args : List PyAtom) :
    (PyAtom.noneType ∈ args → lowerStr s = "none" →
      convert_value_to_type (.str s) (.union args) = .ok .none)
  ∧ (¬(PyAtom.noneType ∈ args ∧ lowerStr s = "none") →
      ∀ (pre post : List PyAtom) (t : PyAtom) (v : Value),
        args = pre ++ t :: post →
        (∀ u ∈ pre, u = .noneType ∨ ∃ e, convertAtom s u = .error e) →
        t ≠ .noneType → convertAtom s t = .ok v →
        convert_value_to_type (.str s) (.union args) = .ok v)
  ∧ (¬(PyAtom.noneType ∈ args ∧ lowerStr s = "none") →
      (∀ t ∈ args, t = .noneType ∨ ∃ e, convertAtom s t = .error e) →
      convert_value_to_type (.str s) (.union args) = .error (.unionExhausted s args)) := by
  have hguard : ∀ hn : ¬(PyAtom.noneType ∈ args ∧ lowerStr s = "none"),
      ¬(args.contains .noneType && (lowerStr s == "none")) = true := by
    intro hn h
    rw [Bool.and_eq_true] at h
    exact hn ⟨List.elem_iff.mp h.1, beq_iff_eq.mp h.2⟩
  refine ⟨?_, ?_, ?_⟩
  · intro hmem heq
    show (if (args.contains PyAtom.noneType && (lowerStr s == "none")) = true then
        Except.ok Value.none else tryUnion s args args) = Except.ok Value.none
    rw [if_pos (by rw [Bool.and_eq_true]; exact ⟨List.elem_iff.mpr hmem, beq_iff_eq.mpr heq⟩)]
  · intro hn pre post t v heq hpre hne hok
    show (if (args.contains PyAtom.noneType && (lowerStr s == "none")) = true then
        Except.ok Value.none else tryUnion s args args) = Except.ok v
    rw [if_neg (hguard hn)]
    rw [heq]
    exact tryUnion_append_success s (pre ++ t :: post) t post v pre hpre hne hok
  · intro hn hall
    show (if (args.contains PyAtom.noneType && (lowerStr s == "none")) = true then
        Except.ok Value.none else tryUnion s args args) =
      Except.error (.unionExhausted s args)
    rw [if_neg (hguard hn)]
    exact tryUnion_all_fail s args args hall

/-- Witness for C3: the "none" sentinel wins over a str member; with no
NoneType member, "abc" fails int and succeeds as the str member; a
lone-int union exhausts on "abc". -/
theorem union_dispatch_behavior_witness :
    convert_value_to_type (.str "NONE") (.union [.str, .noneType]) = .ok .none
  ∧ convert_value_to_type (.str "abc") (.union [.int, .str]) = .ok (.str "abc")
  ∧ convert_value_to_type (.str "abc") (.union [.int]) =
      .error (.unionExhausted "abc" [.int]) :=
  ⟨(union_dispatch_behavior "NONE" [.str, .noneType]).1 (by decide) rfl,
   (union_dispatch_behavior "abc" [.int, .str]).2.1 (by decide) [.int] [] .str (.str "abc")
     rfl
     (by
       intro u hu
       simp only [List.mem_singleton] at hu
       exact Or.inr ⟨.invalidInt "abc", by rw [hu]; rfl⟩)
     (by decide) rfl,
   (union_dispatch_behavior "abc" [.int]).2.2 (by decide)
     (by
       intro t ht
       simp only [List.mem_singleton] at ht
       exact Or.inr ⟨.invalidInt "abc", by rw [ht]; rfl⟩)⟩

/-- C7 code bug. With settings `port` and `port_number`, parsing the tokens
--port-number 80 writes an OverrideStore entry for `port` as well (with
its argparse default), because `_incorporate_parsed_arguments` tests the
flag string by substring containment in the space-joined token string, and
"--port" is a substring of "--port-number 80" — even though the flag
"--port" never appears among the supplied tokens. -/
theorem substring_flag_detection_writes_untouched_flag :
    (incorporate_parsed_arguments
      [("port", .int 8080), ("port_number", .int 80)]
      [("port", .int 8080), ("port_number", .int 8000)]
      [("port", .atom .int), ("port_number", .atom .int)]
      [] ["--port-number", "80"]).lookup "port" = some (.int 8080)
  ∧ "--port" ∉ ["--port-number", "80"] :=
  ⟨rfl, by decide⟩
